import Mathlib

/-!
Verification of the clickhouse-mcp query path.

This file gives a shallow embedding of the query-execution core of the
clickhouse-mcp repository (src/clickhouse_mcp/func.py, main.py and the
startup probe of lifespan_code.py) and proves the specified properties
about it.

Modelling conventions:
  * Python's dynamically typed values (strings, ints, lists/tuples, dicts)
    are embedded as the inductive type `Value`.
  * The canonical result dict `{success, data, error, row_count,
    column_names}` is the structure `QueryResult`; a Python `None` in the
    `data`/`error` slots is `Option.none`.
  * Python string primitives (`strip`, `lower`, `split`, `startswith`,
    `in`, `replace`, slicing) are re-implemented structurally over
    `List Char` so that all embedded code evaluates by kernel reduction.
  * Network I/O is an oracle: the HTTP request is a function
    `net : String -> Except String HttpResponse` standing for
    `requests.get` (an `.error` models a raised exception), and the native
    driver's `execute` is an oracle `String -> Except String Value`.
  * Machine-level details (timeouts, sockets, URL construction,
    authentication fields) do not affect any of the proved claims and are
    absorbed into the oracles.
-/

/-- Embedding of a Python runtime value as found in ClickHouse result sets:
a string, an integer, a list/tuple, or a dict with string keys. -/
inductive Value where
  | str (s : String)
  | int (n : Int)
  | vlist (vs : List Value)
  | vmap (fields : List (String × Value))

/-- Python truthiness (`bool(v)`) for the embedded values: empty strings,
zero and empty containers are falsy. -/
def Value.truthy : Value → Bool
  | .str s => !s.data.isEmpty
  | .int n => decide (n ≠ 0)
  | .vlist vs => !vs.isEmpty
  | .vmap fs => !fs.isEmpty

/-- Nesting depth of a value, used as recursion fuel for `pyRepr`. -/
def Value.depth : Value → Nat
  | .str _ => 1
  | .int _ => 1
  | .vlist [] => 1
  | .vlist (v :: vs) => 1 + max v.depth (Value.depth (Value.vlist vs))
  | .vmap [] => 1
  | .vmap ((k, v) :: fs) => 1 + max v.depth (Value.depth (Value.vmap fs))
termination_by v => sizeOf v
decreasing_by all_goals (simp_wf <;> omega)

/-- Fuel-indexed rendering of a value the way Python's `repr` prints it;
any fuel at least the value's depth yields the full rendering.  String
escaping inside `repr` is not modelled: no claim depends on it. -/
def pyReprFuel : Nat → Value → String
  | 0, _ => ""
  | _, .str s => "'" ++ s ++ "'"
  | _, .int n => toString n
  | fuel+1, .vlist vs =>
      "[" ++ String.intercalate ", " (vs.map (pyReprFuel fuel)) ++ "]"
  | fuel+1, .vmap fs =>
      "\x7b" ++ String.intercalate ", "
        (fs.map fun kv => "'" ++ kv.1 ++ "': " ++ pyReprFuel fuel kv.2) ++ "\x7d"

/-- Python `repr(v)`. -/
def pyRepr (v : Value) : String := pyReprFuel v.depth v

/-- Python `str(v)`: identity on strings, decimal rendering of ints,
`repr` for containers. -/
def pyStr : Value → String
  | .str s => s
  | .int n => toString n
  | v => pyRepr v

/-- Python `s.lower()` (ASCII case folding suffices for the source's
keyword checks). -/
def pyLower (s : String) : String := ⟨s.data.map Char.toLower⟩

/-- Python `s.strip()`: remove leading and trailing whitespace. -/
def pyStrip (s : String) : String :=
  ⟨((s.data.dropWhile Char.isWhitespace).reverse.dropWhile Char.isWhitespace).reverse⟩

/-- Python `s.startswith(pre)`. -/
def pyStartsWith (s pre : String) : Bool := pre.data.isPrefixOf s.data

/-- Python `s.endswith(suf)`. -/
def pyEndsWith (s suf : String) : Bool := suf.data.reverse.isPrefixOf s.data.reverse

/-- Python `c in s` for a single character. -/
def pyHasChar (s : String) (c : Char) : Bool := s.data.contains c

/-- Python `s[:-1]`: the string without its last character. -/
def pyDropLast (s : String) : String := ⟨s.data.dropLast⟩

/-- Does `pat` occur as a contiguous sublist of the second argument?
Scan helper for the Python substring test. -/
def subListAux (pat : List Char) : List Char → Bool
  | [] => pat.isEmpty
  | c :: cs => pat.isPrefixOf (c :: cs) || subListAux pat cs

/-- Python's `pat in s` substring containment on strings. -/
def strContains (s pat : String) : Bool := subListAux pat.data s.data

/-- Python `s.split(sep)` for a one-character separator. -/
def splitCharAux (sep : Char) : List Char → List (List Char)
  | [] => [[]]
  | c :: cs =>
    match splitCharAux sep cs with
    | [] => [[c]]
    | h :: t => if c = sep then [] :: h :: t else (c :: h) :: t

/-- Python `s.split(sep)` for a one-character separator, as strings. -/
def pySplitChar (s : String) (sep : Char) : List String :=
  (splitCharAux sep s.data).map fun l => ⟨l⟩

/-- One step of left-to-right non-overlapping replacement on character
lists.  `fuel` decreases by one per step while at least one character is
consumed per step, so `fuel = l.length` always suffices. -/
def replaceAux (pat rep : List Char) : Nat → List Char → List Char
  | _, [] => []
  | 0, l => l
  | fuel+1, c :: cs =>
      if pat.isPrefixOf (c :: cs) then
        rep ++ replaceAux pat rep fuel (cs.drop (pat.length - 1))
      else
        c :: replaceAux pat rep fuel cs

/-- Python `s.replace(pat, rep)` for a non-empty pattern (the source only
ever replaces `\x7bname\x7d` placeholders, which are never empty). -/
def pyReplace (s pat rep : String) : String :=
  if pat.data.isEmpty then s
  else ⟨replaceAux pat.data rep.data s.data.length s.data⟩

/-- The canonical result record produced by every transport/normalizer:
`{"success": ..., "data": ..., "error": ..., "row_count": ...,
"column_names": ...}`.  All five keys are always present in the source's
dicts; `none` models a key holding Python `None`. -/
structure QueryResult where
  success : Bool
  data : Option (List Value)
  error : Option String
  row_count : Nat
  column_names : List String

/-- The empty successful result `{"success": True, "data": [], "error":
None, "row_count": 0, "column_names": []}` used by several branches. -/
def emptySuccess : QueryResult :=
  { success := true, data := some [], error := none, row_count := 0, column_names := [] }

/-- A parsed JSON body as `process_clickhouse_result` consumes it:
`data` is the row list if the `"data"` key is present, and `meta` is the
list of column names `[col.get("name") for col in result["meta"]]` if the
`"meta"` key is present. -/
structure CHJson where
  data : Option (List Value)
  meta : Option (List String)

/-- An HTTP response as seen by `process_clickhouse_response`:
its `Content-Type` header, the decoded JSON body when `response.json()`
succeeds (`none` models a `JSONDecodeError`), and the body text. -/
structure HttpResponse where
  contentType : String
  jsonBody : Option CHJson
  text : String

/-- func.py `process_clickhouse_result(result, max_rows)`: normalize a
decoded ClickHouse JSON payload. -/
def process_clickhouse_result (result : CHJson) (max_rows : Nat) : QueryResult :=
  match result.data with
  | none => emptySuccess
  | some rows =>
    let column_names :=
      match result.meta with
      | some metaNames => metaNames
      | none =>
        match rows.head? with
        | some (Value.vmap fields) => fields.map Prod.fst
        | _ => []
    { success := true, data := some (rows.take max_rows), error := none,
      row_count := rows.length, column_names := column_names }

/-- Loop body of the multi-line TSV branch of
`process_clickhouse_response`: skip blank lines, split tab-separated
lines into positional rows, wrap other lines as single-cell rows, and
switch the column names from `["value"]` to `column_1..column_n` the
first time a multi-field row appears. -/
def tsvStep (acc : List Value × List String) (line : String) : List Value × List String :=
  if pyStrip line = "" then acc
  else if pyHasChar line '\t' then
    let row_values := pySplitChar line '\t'
    let rows := acc.1 ++ [Value.vlist (row_values.map Value.str)]
    let column_names :=
      if acc.2.length = 1 ∧ acc.2.length < row_values.length then
        (List.range row_values.length).map (fun i => "column_" ++ toString (i + 1))
      else acc.2
    (rows, column_names)
  else
    (acc.1 ++ [Value.vlist [Value.str line]], acc.2)

/-- func.py `process_clickhouse_response(response, max_rows)`: dispatch on
the content type — JSON when the body decodes, else TSV, else plain text.
The source's final catch-all `except` branch cannot fire in the model
because every representable response is handled totally. -/
def process_clickhouse_response (response : HttpResponse) (max_rows : Nat) : QueryResult :=
  let content_type := pyLower response.contentType
  match (if strContains content_type "json" then response.jsonBody else none) with
  | some result => process_clickhouse_result result max_rows
  | none =>
    if strContains content_type "text/tab-separated-values" || strContains content_type "tsv" then
      let text := pyStrip response.text
      if text = "" then emptySuccess
      else
        let lines := pySplitChar text '\n'
        if lines.length = 1 ∧ pyHasChar (lines.headD "") '\t' = false then
          { success := true, data := some [Value.vlist [Value.str (lines.headD "")]],
            error := none, row_count := 1, column_names := ["result"] }
        else
          let acc := lines.foldl tsvStep ([], if lines.isEmpty then [] else ["value"])
          { success := true, data := some (acc.1.take max_rows), error := none,
            row_count := acc.1.length, column_names := acc.2 }
    else
      let text := pyStrip response.text
      if text = "" then emptySuccess
      else if pyHasChar text '\n' = false then
        { success := true, data := some [Value.vlist [Value.str text]],
          error := none, row_count := 1, column_names := ["result"] }
      else
        let lines := (pySplitChar text '\n').filter (fun line => !(pyStrip line = ""))
        { success := true,
          data := some ((lines.take max_rows).map fun line => Value.vlist [Value.str line]),
          error := none, row_count := lines.length, column_names := ["result"] }

/-- func.py `process_native_result(result_set, query_lower, max_rows)`:
normalize a native-driver result set. -/
def process_native_result (result_set : Value) (query_lower : String) (max_rows : Nat) :
    QueryResult :=
  if result_set.truthy = false then emptySuccess
  else
    match result_set with
    | Value.vlist rs =>
      let is_show := pyStartsWith query_lower "show" || pyStartsWith query_lower "describe"
        || pyStartsWith query_lower "desc"
      if is_show then
        match rs.head? with
        | some (Value.vlist first) =>
          let column_names :=
            if pyStartsWith query_lower "show tables" then ["table_name"]
            else if pyStartsWith query_lower "describe" || pyStartsWith query_lower "desc" then
              ["name", "type", "default_type", "default_expression"]
            else (List.range first.length).map (fun i => "column_" ++ toString i)
          { success := true, data := some (rs.take max_rows), error := none,
            row_count := rs.length, column_names := column_names }
        | _ =>
          { success := true,
            data := some ((rs.take max_rows).map fun item => Value.vlist [item]),
            error := none, row_count := rs.length, column_names := ["value"] }
      else
        match rs.head? with
        | some (Value.vmap fields) =>
          { success := true, data := some (rs.take max_rows), error := none,
            row_count := rs.length, column_names := fields.map Prod.fst }
        | first? =>
          let num_cols :=
            match first? with
            | some (Value.vlist cells) => cells.length
            | _ => 1
          { success := true, data := some (rs.take max_rows), error := none,
            row_count := rs.length,
            column_names := (List.range num_cols).map (fun i => "column_" ++ toString i) }
    | other =>
      { success := true, data := some [Value.vlist [Value.str (pyStr other)]],
        error := none, row_count := 1, column_names := ["result"] }

/-- One parameter of func.py `execute_http_query`'s substitution loop:
if `\x7bkey\x7d` occurs literally in the query, replace every occurrence
by the single-quoted value for strings and by `str(value)` otherwise;
a placeholder absent from the query is silently skipped. -/
def substOne (query : String) (kv : String × Value) : String :=
  let placeholder := "\x7b" ++ kv.1 ++ "\x7d"
  if strContains query placeholder then
    pyReplace query placeholder
      (match kv.2 with
       | Value.str s => "'" ++ s ++ "'"
       | v => pyStr v)
  else query

/-- The whole substitution loop `for key, value in params.items(): ...`
of func.py `execute_http_query`, in the mapping's iteration order. -/
def substParams (params : List (String × Value)) (query : String) : String :=
  params.foldl substOne query

/-- func.py `execute_http_query(...)`: substitute the parameters, issue the
GET request (the oracle `net`, applied to the substituted query;
`.error e` models a raised exception whose text is `e`), and normalize
the response.  The source's substitution `except` branch cannot fire in
the model because substitution over representable values is total. -/
def execute_http_query (net : String → Except String HttpResponse) (query : String)
    (params : List (String × Value)) (max_rows : Nat) : QueryResult :=
  let query := substParams params query
  match net query with
  | .error e =>
    { success := false, data := none, error := some e, row_count := 0, column_names := [] }
  | .ok response => process_clickhouse_response response max_rows

/-- Python iteration over one row as `format_query_results` performs it
(`for cell in row`): a list yields its cells, a dict yields its keys.
Iterating a scalar raises `TypeError` in Python; no normalizer output
contains a scalar row inside a list-shaped result, so the scalar case is
mapped to a one-cell row to keep the model total. -/
def rowCells : Value → List Value
  | .vlist cells => cells
  | .vmap fields => fields.map fun kv => Value.str kv.1
  | v => [v]

/-- Python `row.get(col, '')` inside `format_query_results` (the row is a
dict whenever this is reached on source-produced data). -/
def rowGet (row : Value) (col : String) : Value :=
  match row with
  | .vmap fields => (fields.lookup col).getD (Value.str "")
  | _ => Value.str ""

/-- Left-justified padding to a column width, Python's `"\x7b:<w\x7d".format(cell)`. -/
def padCell (width : Nat) (s : String) : String :=
  s ++ ⟨List.replicate (width - s.data.length) ' '⟩

/-- One rendered table line `| c1 | c2 | ... |` of `format_query_results`;
missing cells are the empty string (the source pads short rows with `""`)
and surplus cells are ignored (surplus `format` arguments are ignored). -/
def formatRowLine (widths : List Nat) (row : List String) : String :=
  "| " ++ String.intercalate " | "
    ((List.range widths.length).map fun i => padCell (widths.getD i 0) (row.getD i "")) ++ " |"

/-- func.py `format_query_results(result)`: render a canonical result as
an error line, a summary line, or a bordered fixed-width table.  The
source's no-op `separator.replace("--", "--")` is omitted. -/
def format_query_results (result : QueryResult) : String :=
  if result.success = false then
    "Error executing query: " ++ (result.error.getD "None")
  else if (match result.error with | some e => !e.data.isEmpty | none => false) then
    "Error: " ++ (result.error.getD "None")
  else if (match result.data with | some rows => rows.isEmpty | none => true) then
    "Query executed. Rows returned: " ++ toString result.row_count
  else
    let data := result.data.getD []
    let column_names := result.column_names
    let headerRows : List (List Value) :=
      if column_names.isEmpty then [] else [column_names.map Value.str]
    let bodyRows : List (List Value) :=
      match data.head? with
      | some (Value.vmap _) => data.map fun row => column_names.map (rowGet row)
      | some (Value.vlist _) => data.map rowCells
      | _ => data.map fun item => [item]
    let rows := headerRows ++ bodyRows
    if rows.isEmpty then "Query executed. No data to display."
    else
      let str_rows := rows.map fun row => row.map pyStr
      let col_widths := (List.range (str_rows.headD []).length).map fun i =>
        (str_rows.filterMap fun row =>
          if i < row.length then some (row.getD i "").data.length else none).foldl max 0
      let separator :=
        "+" ++ String.intercalate "+" (col_widths.map fun w => ⟨List.replicate (w + 2) '-'⟩) ++ "+"
      let headerLines :=
        if column_names.isEmpty then []
        else [formatRowLine col_widths (str_rows.headD []), separator]
      let dataStrRows := if column_names.isEmpty then str_rows else str_rows.tail
      String.intercalate "\n"
        ([separator] ++ headerLines ++ dataStrRows.map (formatRowLine col_widths) ++
         [separator,
          "Total rows: " ++ toString result.row_count ++
            " (showing first " ++ toString data.length ++ ")"])

/-- The two transports. -/
inductive Mode where
  | http
  | native
deriving DecidableEq

/-- The transport name as main.py interpolates it into error messages. -/
def modeName : Mode → String
  | .http => "http"
  | .native => "native"

/-- The other transport, main.py's
`alternate_mode = "http" if app_context.connection_mode == "native" else "native"`. -/
def alternateOf : Mode → Mode
  | .http => .native
  | .native => .http

/-- The process environment `execute_db_query` runs in: the connection
mode fixed at startup, the availability flags
(`CLICKHOUSE_HTTP_AVAILABLE`, `CLICKHOUSE_NATIVE_AVAILABLE` together
with a usable `ClickHouseClient`), whether `app_context.connection` is
set, and the two transport oracles (applied to the query text; the
native oracle's `.error` models a raised driver exception). -/
structure Env where
  mode : Mode
  httpAvailable : Bool
  nativeAvailable : Bool
  connAvailable : Bool
  httpNet : String → Except String HttpResponse
  nativeExec : String → Except String Value

/-- The primary-transport attempt of main.py `execute_db_query` (its first
`try` block): HTTP mode runs `execute_http_query` and raises the result's
error text when `success` is false (a dict always carries its `error`
key, so the source's `"Unknown HTTP query error"` default is dead; a
`None` error would be rendered `"None"` by `str`); native mode runs the
persistent connection's `execute` and normalizes. -/
def runPrimary (env : Env) (query query_lower : String) (params : List (String × Value))
    (max_rows : Nat) : Except String QueryResult :=
  match env.mode with
  | .http =>
    let r := execute_http_query env.httpNet query params max_rows
    if r.success then .ok r else .error (r.error.getD "None")
  | .native =>
    match env.nativeExec query with
    | .error e => .error e
    | .ok result_set => .ok (process_native_result result_set query_lower max_rows)

/-- The one-shot alternate-transport attempt of main.py `execute_db_query`
(its second `try` block): the other transport is tried once when its
driver is available — a temporary native client is built for the native
direction and its errors are wrapped as `Native connection failed: ...` —
and an unavailable alternate raises
`Alternate connection mode ... not available`. -/
def runAlternate (env : Env) (query query_lower : String) (params : List (String × Value))
    (max_rows : Nat) : Except String QueryResult :=
  match alternateOf env.mode with
  | .http =>
    if env.httpAvailable then
      let r := execute_http_query env.httpNet query params max_rows
      if r.success then .ok r else .error (r.error.getD "None")
    else .error "Alternate connection mode http not available"
  | .native =>
    if env.nativeAvailable then
      match env.nativeExec query with
      | .error e => .error ("Native connection failed: " ++ e)
      | .ok result_set => .ok (process_native_result result_set query_lower max_rows)
    else .error "Alternate connection mode native not available"

/-- The transport calls the alternate attempt makes: one call when the
other transport's driver is available, none otherwise. -/
def alternateCalls (env : Env) : List Mode :=
  match alternateOf env.mode with
  | .http => if env.httpAvailable then [Mode.http] else []
  | .native => if env.nativeAvailable then [Mode.native] else []

/-- The read-only keyword allowlist of main.py `execute_db_query`. -/
def allowed_prefixes : List String := ["select", "show", "describe", "desc", "explain"]

/-- main.py `execute_db_query(query, params, max_rows)`.  The returned
pair is the tool's reply string together with the ordered list of
transports actually called (empty exactly when no network request was
issued).  Validation: the trimmed lower-cased query must start with an
allowlisted keyword, and `";" in query[:-1]` rejects multi-statement
input; both rejections return before any connection use.  Then the
primary transport runs, a failure triggers the one-shot alternate
attempt, and a double failure returns both labeled messages. -/
def execute_db_query (env : Env) (query : String) (params : List (String × Value))
    (max_rows : Nat) : String × List Mode :=
  let query_lower := pyLower (pyStrip query)
  if (allowed_prefixes.any fun p => pyStartsWith query_lower p) = false then
    ("Error: Only read operations (SELECT, SHOW, DESCRIBE, EXPLAIN) are allowed. Rejected query: "
      ++ query, [])
  else if pyHasChar (pyDropLast query) ';' then
    ("Error: Multiple statements are not allowed. Rejected query: " ++ query, [])
  else if env.connAvailable = false then
    ("Error: Could not connect to ClickHouse database", [])
  else
    match runPrimary env query query_lower params max_rows with
    | .ok result => (format_query_results result, [env.mode])
    | .error connection_error =>
      match runAlternate env query query_lower params max_rows with
      | .ok result => (format_query_results result, env.mode :: alternateCalls env)
      | .error alt_error =>
        ("Database error: Primary connection (" ++ modeName env.mode ++ ") error: "
           ++ connection_error ++ "\nAlternate connection error: " ++ alt_error,
         env.mode :: alternateCalls env)

/-- The startup-probe environment of lifespan_code.py `app_lifespan`:
driver availability, whether the HTTP `SELECT 1` GET succeeds
(`requests.get` + `raise_for_status`), whether the subsequent
`http_conn.execute("SELECT 1")` test succeeds, and whether building the
native client and running its `SELECT 1` probe succeeds. -/
structure ProbeEnv where
  httpAvailable : Bool
  nativeAvailable : Bool
  httpConnectOk : Bool
  httpExecOk : Bool
  nativeOk : Bool

/-- The `DatabaseConnection` record kept in the application context. -/
structure ConnState where
  connection_type : Mode
  database : String

/-- The process-wide `AppContext`: the cached connection and the chosen
connection mode. -/
structure AppContextState where
  connection : Option ConnState
  connection_mode : Option Mode

/-- The `AppContext()` the module starts with: no connection, no mode. -/
def initialAppContext : AppContextState := { connection := none, connection_mode := none }

/-- The startup section of lifespan_code.py `app_lifespan` (lines 184-301),
as executed up to the `yield`.  Step 1 probes HTTP: the probe succeeds
when the driver is available, the `SELECT 1` GET succeeds and the
`execute("SELECT 1")` test succeeds, in which case the local variables
`conn`/`connection_mode` are set to the HTTP connection.  Step 2 is the
source's `if connection_mode is None and CLICKHOUSE_NATIVE_AVAILABLE and
ClickHouseClient is not None:` block; the two assignments
`app_context.connection = conn` and `app_context.connection_mode =
connection_mode` sit INSIDE this block (source lines 298-299), so the
context is updated only when that condition holds, and the `else` arm
leaves the context untouched. -/
def app_lifespan_startup (env : ProbeEnv) (database : String) (ctx : AppContextState) :
    AppContextState :=
  let httpSuccess := env.httpAvailable && env.httpConnectOk && env.httpExecOk
  let conn : Option ConnState :=
    if httpSuccess then some { connection_type := .http, database := database } else none
  let connection_mode : Option Mode := if httpSuccess then some .http else none
  if connection_mode.isNone && env.nativeAvailable then
    let conn := if env.nativeOk then some { connection_type := .native, database := database }
      else conn
    let connection_mode := if env.nativeOk then some Mode.native else connection_mode
    { ctx with connection := conn, connection_mode := connection_mode }
  else
    ctx

/-- The field-coupling invariant of the canonical result record: a
successful record carries no error text, and a failed record carries no
data, a zero row count and no column names. -/
def fieldCoupling (r : QueryResult) : Prop :=
  (r.success = true → r.error = none) ∧
  (r.success = false → r.data = none ∧ r.row_count = 0 ∧ r.column_names = [])

lemma process_clickhouse_result_success (result : CHJson) (max_rows : Nat) :
    (process_clickhouse_result result max_rows).success = true ∧
    (process_clickhouse_result result max_rows).error = none := by
  unfold process_clickhouse_result
  cases h : result.data <;> simp [h, emptySuccess]

lemma process_clickhouse_response_success (response : HttpResponse) (max_rows : Nat) :
    (process_clickhouse_response response max_rows).success = true ∧
    (process_clickhouse_response response max_rows).error = none := by
  simp only [process_clickhouse_response]
  repeat' split
  all_goals first
    | exact process_clickhouse_result_success _ _
    | simp [emptySuccess]

lemma process_native_result_success (result_set : Value) (query_lower : String)
    (max_rows : Nat) :
    (process_native_result result_set query_lower max_rows).success = true ∧
    (process_native_result result_set query_lower max_rows).error = none := by
  simp only [process_native_result]
  repeat' split
  all_goals simp [emptySuccess]

lemma execute_http_query_coupling (net : String → Except String HttpResponse)
    (query : String) (params : List (String × Value)) (max_rows : Nat) :
    fieldCoupling (execute_http_query net query params max_rows) := by
  unfold fieldCoupling
  simp only [execute_http_query]
  cases h : net (substParams params query) with
  | error e => simp [h]
  | ok response =>
    have hs := process_clickhouse_response_success response max_rows
    simp [h, hs.1, hs.2]

/-- C3.  The startup probe tries HTTP first and then native, but the
process-wide state is only assigned inside the native-probe `if` block:
when the HTTP probe connects and its `SELECT 1` test succeeds (first two
conjuncts, with every probe step succeeding), the application context
still records no connection and no mode, so subsequent queries cannot
use the HTTP connection — contradicting the claim.  The native fallback
direction (last two conjuncts) does get recorded, because the failed
HTTP probe leaves `connection_mode` as `None`. -/
theorem c3_probe_state_bug :
    (app_lifespan_startup
       { httpAvailable := true, nativeAvailable := true, httpConnectOk := true,
         httpExecOk := true, nativeOk := true } "default" initialAppContext).connection
      = none ∧
    (app_lifespan_startup
       { httpAvailable := true, nativeAvailable := true, httpConnectOk := true,
         httpExecOk := true, nativeOk := true } "default" initialAppContext).connection_mode
      = none ∧
    (app_lifespan_startup
       { httpAvailable := true, nativeAvailable := true, httpConnectOk := false,
         httpExecOk := false, nativeOk := true } "default" initialAppContext).connection_mode
      = some Mode.native ∧
    (app_lifespan_startup
       { httpAvailable := true, nativeAvailable := true, httpConnectOk := false,
         httpExecOk := false, nativeOk := true } "default" initialAppContext).connection
      = some { connection_type := Mode.native, database := "default" } :=
  ⟨rfl, rfl, rfl, rfl⟩

/-- C8 counterexample.  The native result set `[1]` for the query
`SELECT 1` is a list, so it reaches the generic SELECT branch: the
synthetic column is `column_0`, not `result` as the claim states. -/
theorem c8_counterexample :
    (process_native_result (Value.vlist [Value.int 1]) "select 1" 10).column_names
      = ["column_0"] ∧
    (process_native_result (Value.vlist [Value.int 1]) "select 1" 10).column_names
      ≠ ["result"] :=
  ⟨rfl, by decide⟩

/-- C8 amended.  Normalizing the native result set `[1]` for `SELECT 1`
yields a successful one-row result whose single row is the bare scalar
`1` under the synthetic column `column_0`; the synthetic `result` column
appears only when the native result is not a list, as for the bare
scalar `1`. -/
theorem c8_native_select_one :
    process_native_result (Value.vlist [Value.int 1]) "select 1" 10 =
      { success := true, data := some [Value.int 1], error := none,
        row_count := 1, column_names := ["column_0"] } ∧
    process_native_result (Value.int 1) "select 1" 10 =
      { success := true, data := some [Value.vlist [Value.str "1"]], error := none,
        row_count := 1, column_names := ["result"] } :=
  ⟨rfl, rfl⟩

/-- C9.  Parameter substitution leaves a query with no matching
placeholder textually unchanged, substitutes the string value `"x"` for
the placeholder `\x7bp\x7d` single-quoted, and substitutes the integer
`5` unquoted. -/
theorem c9_parameter_substitution :
    (∀ (params : List (String × Value)) (query : String),
        (∀ kv ∈ params, strContains query ("\x7b" ++ kv.1 ++ "\x7d") = false) →
        substParams params query = query) ∧
    substParams [("p", Value.str "x")] "SELECT a FROM t WHERE b = \x7bp\x7d" =
      "SELECT a FROM t WHERE b = 'x'" ∧
    substParams [("p", Value.int 5)] "SELECT a FROM t WHERE b = \x7bp\x7d" =
      "SELECT a FROM t WHERE b = 5" := by
  refine ⟨?_, by decide, by decide⟩
  intro params
  induction params with
  | nil => intro query _; rfl
  | cons kv rest ih =>
    intro query h
    have hk : substOne query kv = query := by
      unfold substOne
      simp [h kv (List.mem_cons_self kv rest)]
    calc substParams (kv :: rest) query
        = substParams rest (substOne query kv) := rfl
      _ = substParams rest query := by rw [hk]
      _ = query := ih query (fun kv' hkv' => h kv' (List.mem_cons_of_mem kv hkv'))

/-- C9 witness: applying the no-matching-placeholder part at a concrete
query and parameter map. -/
theorem c9_witness :
    (∀ kv ∈ [("id", Value.int 7)], strContains "SELECT 1" ("\x7b" ++ kv.1 ++ "\x7d") = false) ∧
    substParams [("id", Value.int 7)] "SELECT 1" = "SELECT 1" :=
  ⟨by decide, c9_parameter_substitution.1 [("id", Value.int 7)] "SELECT 1" (by decide)⟩

/-- C10.  Every result record produced by the HTTP client or any of the
three normalizing functions satisfies the field-coupling invariant:
success implies no error text, and failure implies no data, a zero row
count and empty column names. -/
theorem c10_field_coupling :
    ∀ (net : String → Except String HttpResponse) (query : String)
      (params : List (String × Value)) (response : HttpResponse) (result : CHJson)
      (result_set : Value) (query_lower : String) (max_rows : Nat),
      fieldCoupling (execute_http_query net query params max_rows) ∧
      fieldCoupling (process_clickhouse_response response max_rows) ∧
      fieldCoupling (process_clickhouse_result result max_rows) ∧
      fieldCoupling (process_native_result result_set query_lower max_rows) := by
  intro net query params response result result_set query_lower max_rows
  refine ⟨execute_http_query_coupling net query params max_rows, ?_, ?_, ?_⟩
  · have h := process_clickhouse_response_success response max_rows
    exact ⟨fun _ => h.2, fun hfalse => absurd h.1 (by simp [hfalse])⟩
  · have h := process_clickhouse_result_success result max_rows
    exact ⟨fun _ => h.2, fun hfalse => absurd h.1 (by simp [hfalse])⟩
  · have h := process_native_result_success result_set query_lower max_rows
    exact ⟨fun _ => h.2, fun hfalse => absurd h.1 (by simp [hfalse])⟩

/-- C10 witness: the coupling invariant applied at a failed HTTP request
and at a successful native normalization. -/
theorem c10_witness :
    (execute_http_query (fun _ => Except.error "boom") "SELECT 1" [] 10).error = none ∨
    ((execute_http_query (fun _ => Except.error "boom") "SELECT 1" [] 10).data = none ∧
     (execute_http_query (fun _ => Except.error "boom") "SELECT 1" [] 10).row_count = 0 ∧
     (execute_http_query (fun _ => Except.error "boom") "SELECT 1" [] 10).column_names = []) :=
  Or.inr
    ((c10_field_coupling (fun _ => Except.error "boom") "SELECT 1" []
        { contentType := "", jsonBody := none, text := "" }
        { data := none, meta := none } (Value.int 0) "" 10).1.2 rfl)

/-- C4.  For every result produced by any of the three normalization
paths and every `max_rows` between 1 and 100, the returned data sequence
holds at most `max_rows` rows. -/
theorem c4_truncation_bound :
    ∀ (max_rows : Nat), 1 ≤ max_rows → max_rows ≤ 100 →
      (∀ (result : CHJson) (rows : List Value),
          (process_clickhouse_result result max_rows).data = some rows →
          rows.length ≤ max_rows) ∧
      (∀ (response : HttpResponse) (rows : List Value),
          (process_clickhouse_response response max_rows).data = some rows →
          rows.length ≤ max_rows) ∧
      (∀ (result_set : Value) (query_lower : String) (rows : List Value),
          (process_native_result result_set query_lower max_rows).data = some rows →
          rows.length ≤ max_rows) := by
  intro max_rows h1 _
  have hjson : ∀ (result : CHJson) (rows : List Value),
      (process_clickhouse_result result max_rows).data = some rows →
      rows.length ≤ max_rows := by
    intro result rows h
    simp only [process_clickhouse_result] at h
    split at h
    · simp [emptySuccess] at h
      subst h
      simp
    · simp at h
      subst h
      simp only [List.length_take]
      omega
  refine ⟨hjson, ?_, ?_⟩
  · intro response rows h
    simp only [process_clickhouse_response] at h
    split at h
    · exact hjson _ _ h
    · repeat' split at h
      all_goals
        (simp [emptySuccess] at h
         subst h
         simp only [List.length_take, List.length_map, List.length_nil, List.length_cons]
         omega)
  · intro result_set query_lower rows h
    simp only [process_native_result] at h
    repeat' split at h
    all_goals
      (simp [emptySuccess] at h
       subst h
       simp only [List.length_take, List.length_map, List.length_nil, List.length_cons]
       omega)

/-- C4 witness: a two-row native result set truncated to one row. -/
theorem c4_witness :
    (1 : Nat) ≤ 1 ∧
    (process_native_result (Value.vlist [Value.vlist [Value.int 3], Value.vlist [Value.int 4]])
        "select a" 1).data = some [Value.vlist [Value.int 3]] ∧
    ([Value.vlist [Value.int 3]] : List Value).length ≤ 1 :=
  ⟨by decide, rfl,
    (c4_truncation_bound 1 (by decide) (by decide)).2.2
      (Value.vlist [Value.vlist [Value.int 3], Value.vlist [Value.int 4]]) "select a"
      [Value.vlist [Value.int 3]] rfl⟩

/-- C7 counterexample.  On the native path the claim says `row_count`
equals the length of the already-truncated data list, but a two-row
result set truncated to `max_rows = 1` reports `row_count = 2` while the
returned data holds a single row. -/
theorem c7_counterexample :
    (process_native_result (Value.vlist [Value.vlist [Value.int 1], Value.vlist [Value.int 2]])
        "select a" 1).row_count = 2 ∧
    ((process_native_result (Value.vlist [Value.vlist [Value.int 1], Value.vlist [Value.int 2]])
        "select a" 1).data.getD []).length = 1 ∧
    (2 : Nat) ≠ 1 :=
  ⟨rfl, rfl, by decide⟩

lemma exists_pretrunc_take (max_rows : Nat) (r : QueryResult) (l : List Value)
    (hd : r.data = some (l.take max_rows)) (hc : r.row_count = l.length) :
    ∃ full : List Value, r.data = some (full.take max_rows) ∧ r.row_count = full.length :=
  ⟨l, hd, hc⟩

lemma exists_pretrunc_empty (max_rows : Nat) (r : QueryResult)
    (hd : r.data = some []) (hc : r.row_count = 0) :
    ∃ full : List Value, r.data = some (full.take max_rows) ∧ r.row_count = full.length :=
  ⟨[], by simp [hd], by simp [hc]⟩

lemma exists_pretrunc_single (max_rows : Nat) (h1 : 1 ≤ max_rows) (r : QueryResult) (v : Value)
    (hd : r.data = some [v]) (hc : r.row_count = 1) :
    ∃ full : List Value, r.data = some (full.take max_rows) ∧ r.row_count = full.length := by
  refine ⟨[v], ?_, by simp [hc]⟩
  rw [hd]
  cases max_rows with
  | zero => omega
  | succ n => simp

lemma exists_pretrunc_map {α : Type} (max_rows : Nat) (r : QueryResult) (f : α → Value)
    (l : List α) (hd : r.data = some ((l.take max_rows).map f)) (hc : r.row_count = l.length) :
    ∃ full : List Value, r.data = some (full.take max_rows) ∧ r.row_count = full.length :=
  ⟨l.map f, by rw [hd]; simp [List.map_take], by simp [hc]⟩

lemma exists_pretrunc_json (max_rows : Nat) (result : CHJson) :
    ∃ full : List Value,
      (process_clickhouse_result result max_rows).data = some (full.take max_rows) ∧
      (process_clickhouse_result result max_rows).row_count = full.length := by
  cases h : result.data with
  | none =>
    exact ⟨[], by simp [process_clickhouse_result, h, emptySuccess],
      by simp [process_clickhouse_result, h, emptySuccess]⟩
  | some rows =>
    exact ⟨rows, by simp [process_clickhouse_result, h], by simp [process_clickhouse_result, h]⟩

/-- C7 amended.  On every path — HTTP JSON, HTTP TSV and plain text, and
native — `row_count` equals the length of the full pre-truncation row
list while `data` is that list truncated to `max_rows`; so `row_count`
equals `len(data)` only when the full list fits in `max_rows`. -/
theorem c7_row_count_untruncated :
    ∀ (max_rows : Nat), 1 ≤ max_rows →
      (∀ (result : CHJson) (rows : List Value), result.data = some rows →
          (process_clickhouse_result result max_rows).row_count = rows.length) ∧
      (∀ (response : HttpResponse), ∃ full : List Value,
          (process_clickhouse_response response max_rows).data = some (full.take max_rows) ∧
          (process_clickhouse_response response max_rows).row_count = full.length) ∧
      (∀ (result_set : Value) (query_lower : String), ∃ full : List Value,
          (process_native_result result_set query_lower max_rows).data
            = some (full.take max_rows) ∧
          (process_native_result result_set query_lower max_rows).row_count = full.length) := by
  intro max_rows h1
  refine ⟨?_, ?_, ?_⟩
  · intro result rows h
    simp [process_clickhouse_result, h]
  · intro response
    simp only [process_clickhouse_response]
    split
    · exact exists_pretrunc_json max_rows _
    · repeat' split
      all_goals first
        | exact exists_pretrunc_empty max_rows _ rfl rfl
        | exact exists_pretrunc_single max_rows h1 _ _ rfl rfl
        | exact exists_pretrunc_take max_rows _ _ rfl rfl
        | exact exists_pretrunc_map max_rows _ _ _ rfl rfl
  · intro result_set query_lower
    simp only [process_native_result]
    repeat' split
    all_goals first
      | exact exists_pretrunc_empty max_rows _ rfl rfl
      | exact exists_pretrunc_single max_rows h1 _ _ rfl rfl
      | exact exists_pretrunc_take max_rows _ _ rfl rfl
      | exact exists_pretrunc_map max_rows _ _ _ rfl rfl

/-- C7 witness for the amended statement: the native conjunct applied to
the two-row result set at `max_rows = 1`. -/
theorem c7_witness :
    ∃ full : List Value,
      (process_native_result (Value.vlist [Value.vlist [Value.int 1], Value.vlist [Value.int 2]])
          "select a" 1).data = some (full.take 1) ∧
      (process_native_result (Value.vlist [Value.vlist [Value.int 1], Value.vlist [Value.int 2]])
          "select a" 1).row_count = full.length :=
  (c7_row_count_untruncated 1 (by decide)).2.2
    (Value.vlist [Value.vlist [Value.int 1], Value.vlist [Value.int 2]]) "select a"

/-- A concrete JSON payload used by the sample environments below. -/
def sampleJson : CHJson :=
  { data := some [Value.vlist [Value.int 1]], meta := some ["one"] }

/-- A concrete JSON HTTP response used by the sample environments below. -/
def sampleResponse : HttpResponse :=
  { contentType := "application/json; charset=UTF-8", jsonBody := some sampleJson,
    text := "[[1]]" }

/-- Sample environment: HTTP primary transport, both transports healthy. -/
def envHttpOk : Env :=
  { mode := .http, httpAvailable := true, nativeAvailable := true, connAvailable := true,
    httpNet := fun _ => .ok sampleResponse,
    nativeExec := fun _ => .ok (Value.vlist [Value.vlist [Value.int 1]]) }

/-- Sample environment: the HTTP request raises, the native driver works. -/
def envHttpDown : Env :=
  { envHttpOk with httpNet := (fun _ => .error "http boom") }

/-- Sample environment: both transports raise. -/
def envBothDown : Env :=
  { mode := .http, httpAvailable := true, nativeAvailable := true, connAvailable := true,
    httpNet := fun _ => .error "http boom",
    nativeExec := fun _ => .error "native boom" }

/-- C1.  A query whose trimmed lower-cased text begins with an
allowlisted keyword passes validation (given a single statement and an
available connection, a transport call is made), while any other leading
keyword is rejected with the descriptive read-only error and no
transport call at all. -/
theorem c1_read_only_validation :
    (∀ (env : Env) (query : String) (params : List (String × Value)) (max_rows : Nat),
        (allowed_prefixes.any fun p => pyStartsWith (pyLower (pyStrip query)) p) = true →
        pyHasChar (pyDropLast query) ';' = false →
        env.connAvailable = true →
        (execute_db_query env query params max_rows).2 ≠ []) ∧
    (∀ (env : Env) (query : String) (params : List (String × Value)) (max_rows : Nat),
        (allowed_prefixes.any fun p => pyStartsWith (pyLower (pyStrip query)) p) = false →
        execute_db_query env query params max_rows =
          ("Error: Only read operations (SELECT, SHOW, DESCRIBE, EXPLAIN) are allowed. Rejected query: "
            ++ query, [])) := by
  constructor
  · intro env query params max_rows hpre hsemi hconn
    simp only [execute_db_query]
    simp only [hpre, hsemi, hconn]
    simp only [Bool.true_eq_false, if_false, Bool.false_eq_true]
    cases hp : runPrimary env query (pyLower (pyStrip query)) params max_rows with
    | ok r => simp [hp]
    | error ce =>
      cases ha : runAlternate env query (pyLower (pyStrip query)) params max_rows with
      | ok r => simp [hp, ha]
      | error ae => simp [hp, ha]
  · intro env query params max_rows hpre
    simp only [execute_db_query]
    simp [hpre]

/-- C1 witness: a trimmed mixed-case SELECT reaches the transport, and an
INSERT is rejected with the read-only error and an empty call trace. -/
theorem c1_witness :
    (execute_db_query envHttpOk " SELECT 1 " [] 10).2 ≠ [] ∧
    execute_db_query envHttpOk "insert into t values (1)" [] 10 =
      ("Error: Only read operations (SELECT, SHOW, DESCRIBE, EXPLAIN) are allowed. Rejected query: "
        ++ "insert into t values (1)", []) :=
  ⟨c1_read_only_validation.1 envHttpOk " SELECT 1 " [] 10 (by decide) (by decide) rfl,
   c1_read_only_validation.2 envHttpOk "insert into t values (1)" [] 10 (by decide)⟩

/-- C2.  A query containing `;` anywhere but its final character fails
validation before any transport call — with the multiple-statements
error whenever the keyword check passes — while a query whose only `;`
is its final character passes the single-statement check and reaches the
transport. -/
theorem c2_single_statement_validation :
    (∀ (env : Env) (query : String) (params : List (String × Value)) (max_rows : Nat),
        pyHasChar (pyDropLast query) ';' = true →
        (allowed_prefixes.any fun p => pyStartsWith (pyLower (pyStrip query)) p) = true →
        execute_db_query env query params max_rows =
          ("Error: Multiple statements are not allowed. Rejected query: " ++ query, [])) ∧
    (∀ (env : Env) (query : String) (params : List (String × Value)) (max_rows : Nat),
        pyHasChar (pyDropLast query) ';' = true →
        (execute_db_query env query params max_rows).2 = []) ∧
    (∀ (env : Env) (query : String) (params : List (String × Value)) (max_rows : Nat),
        pyEndsWith query ";" = true →
        pyHasChar (pyDropLast query) ';' = false →
        (allowed_prefixes.any fun p => pyStartsWith (pyLower (pyStrip query)) p) = true →
        env.connAvailable = true →
        (execute_db_query env query params max_rows).2 ≠ []) := by
  refine ⟨?_, ?_, ?_⟩
  · intro env query params max_rows hsemi hpre
    simp only [execute_db_query]
    simp [hpre, hsemi]
  · intro env query params max_rows hsemi
    simp only [execute_db_query]
    cases hpre : (allowed_prefixes.any fun p => pyStartsWith (pyLower (pyStrip query)) p) with
    | false => simp [hpre]
    | true => simp [hpre, hsemi]
  · intro env query params max_rows _ hsemi hpre hconn
    simp only [execute_db_query]
    simp only [hpre, hsemi, hconn]
    simp only [Bool.true_eq_false, if_false, Bool.false_eq_true]
    cases hp : runPrimary env query (pyLower (pyStrip query)) params max_rows with
    | ok r => simp [hp]
    | error ce =>
      cases ha : runAlternate env query (pyLower (pyStrip query)) params max_rows with
      | ok r => simp [hp, ha]
      | error ae => simp [hp, ha]

/-- C2 witness: an interior semicolon is rejected with the
multiple-statements error and no transport call, while a single trailing
semicolon reaches the transport. -/
theorem c2_witness :
    execute_db_query envHttpOk "select 1; drop table t" [] 10 =
      ("Error: Multiple statements are not allowed. Rejected query: "
        ++ "select 1; drop table t", []) ∧
    (execute_db_query envHttpOk "select 1;" [] 10).2 ≠ [] :=
  ⟨c2_single_statement_validation.1 envHttpOk "select 1; drop table t" [] 10
     (by decide) (by decide),
   c2_single_statement_validation.2.2 envHttpOk "select 1;" [] 10
     (by decide) (by decide) (by decide) rfl⟩

lemma runAlternate_ok_success (env : Env) (query query_lower : String)
    (params : List (String × Value)) (max_rows : Nat) (r : QueryResult)
    (h : runAlternate env query query_lower params max_rows = .ok r) :
    r.success = true ∧ r.error = none := by
  simp only [runAlternate] at h
  split at h
  · split at h
    · split at h
      · rename_i hsucc
        cases h
        exact ⟨hsucc, (execute_http_query_coupling _ _ _ _).1 hsucc⟩
      · simp at h
    · simp at h
  · split at h
    · split at h
      · simp at h
      · cases h
        exact ⟨(process_native_result_success _ _ _).1, (process_native_result_success _ _ _).2⟩
    · simp at h

/-- C5.  When the primary transport raises or reports failure and the
alternate transport succeeds on the same statement, `execute_db_query`
returns exactly the formatted result the alternate transport alone
produced; that result is successful and carries no error text, so no
error is surfaced to the caller. -/
theorem c5_fallback_equivalence :
    ∀ (env : Env) (query : String) (params : List (String × Value)) (max_rows : Nat)
      (connection_error : String) (r : QueryResult),
      (allowed_prefixes.any fun p => pyStartsWith (pyLower (pyStrip query)) p) = true →
      pyHasChar (pyDropLast query) ';' = false →
      env.connAvailable = true →
      runPrimary env query (pyLower (pyStrip query)) params max_rows
        = .error connection_error →
      runAlternate env query (pyLower (pyStrip query)) params max_rows = .ok r →
      (execute_db_query env query params max_rows).1 = format_query_results r ∧
      r.success = true ∧ r.error = none := by
  intro env query params max_rows ce r hpre hsemi hconn hprim halt
  have hr := runAlternate_ok_success env query (pyLower (pyStrip query)) params max_rows r halt
  refine ⟨?_, hr.1, hr.2⟩
  simp only [execute_db_query]
  simp [hpre, hsemi, hconn, hprim, halt]

/-- C5 witness: HTTP primary fails, the native alternate succeeds, and
the reply is exactly the formatted native result. -/
theorem c5_witness :
    (execute_db_query envHttpDown "SELECT 1" [] 10).1 =
      format_query_results
        (process_native_result (Value.vlist [Value.vlist [Value.int 1]]) "select 1" 10) ∧
    (process_native_result (Value.vlist [Value.vlist [Value.int 1]]) "select 1" 10).success
      = true ∧
    (process_native_result (Value.vlist [Value.vlist [Value.int 1]]) "select 1" 10).error
      = none :=
  c5_fallback_equivalence envHttpDown "SELECT 1" [] 10 "http boom"
    (process_native_result (Value.vlist [Value.vlist [Value.int 1]]) "select 1" 10)
    (by decide) (by decide) rfl rfl rfl

/-- C6.  When both the primary attempt and the one-shot alternate attempt
fail, the reply is the single string that concatenates both failure
messages, each labeled with its role, so each message appears untruncated
inside the reply. -/
theorem c6_both_transports_fail :
    ∀ (env : Env) (query : String) (params : List (String × Value)) (max_rows : Nat)
      (connection_error alt_error : String),
      (allowed_prefixes.any fun p => pyStartsWith (pyLower (pyStrip query)) p) = true →
      pyHasChar (pyDropLast query) ';' = false →
      env.connAvailable = true →
      runPrimary env query (pyLower (pyStrip query)) params max_rows
        = .error connection_error →
      runAlternate env query (pyLower (pyStrip query)) params max_rows = .error alt_error →
      (execute_db_query env query params max_rows).1 =
        "Database error: Primary connection (" ++ modeName env.mode ++ ") error: "
          ++ connection_error ++ "\nAlternate connection error: " ++ alt_error ∧
      connection_error.data <:+: ((execute_db_query env query params max_rows).1).data ∧
      alt_error.data <:+: ((execute_db_query env query params max_rows).1).data := by
  intro env query params max_rows ce ae hpre hsemi hconn hprim halt
  have heq : (execute_db_query env query params max_rows).1 =
      "Database error: Primary connection (" ++ modeName env.mode ++ ") error: "
        ++ ce ++ "\nAlternate connection error: " ++ ae := by
    simp only [execute_db_query]
    simp [hpre, hsemi, hconn, hprim, halt]
  refine ⟨heq, ?_, ?_⟩
  · rw [heq]
    refine ⟨("Database error: Primary connection (" ++ modeName env.mode ++ ") error: ").data,
      ("\nAlternate connection error: " ++ ae).data, ?_⟩
    simp [String.data_append]
  · rw [heq]
    refine ⟨("Database error: Primary connection (" ++ modeName env.mode ++ ") error: "
      ++ ce ++ "\nAlternate connection error: ").data, ([] : List Char), ?_⟩
    simp [String.data_append]

/-- C6 witness: both transports fail and the reply carries both labeled
messages. -/
theorem c6_witness :
    (execute_db_query envBothDown "SELECT 1" [] 10).1 =
      "Database error: Primary connection (" ++ modeName envBothDown.mode ++ ") error: "
        ++ "http boom" ++ "\nAlternate connection error: "
        ++ ("Native connection failed: " ++ "native boom") ∧
    ("http boom".data <:+: ((execute_db_query envBothDown "SELECT 1" [] 10).1).data) ∧
    (("Native connection failed: " ++ "native boom").data
       <:+: ((execute_db_query envBothDown "SELECT 1" [] 10).1).data) :=
  c6_both_transports_fail envBothDown "SELECT 1" [] 10 "http boom"
    ("Native connection failed: " ++ "native boom") (by decide) (by decide) rfl rfl rfl
